import Mathlib

/-!
Verification of the HTTP endpoint layer in
`src/mcp_server_unipile/http_server.py`.

The file shallowly embeds the Python handlers: JSON values become an
inductive `Json` type, Python dicts become ordered association lists,
exceptions become `Except String`, and each FastAPI handler becomes a total
Lean function from its validated inputs and the outcome of its outbound
HTTP call to the HTTP result it produces. A handler result `HResult.err s d`
stands for `HTTPException(status_code=s, detail=d)`, which FastAPI renders
as a response with status `s` and JSON body holding `d` under the key
`detail`. The `UnipileWrapper` class imported from `.server` is not part of
the sources; where its behaviour matters it is modelled from the spec, as
marked on each such definition.
-/

set_option autoImplicit false

namespace Unipile

/-- JSON values as produced by `json.loads` / consumed by `json.dumps`.
Object fields keep insertion order, as Python dicts do. -/
inductive Json where
  | null : Json
  | bool : Bool → Json
  | num : Int → Json
  | str : String → Json
  | arr : List Json → Json
  | obj : List (String × Json) → Json

mutual

/-- Decidable equality for `Json` (spelled out because automatic deriving
does not handle the nested `List` occurrences). -/
def decEqJson : (a b : Json) → Decidable (a = b)
  | .null, .null => isTrue rfl
  | .null, .bool _ => isFalse fun h => Json.noConfusion h
  | .null, .num _ => isFalse fun h => Json.noConfusion h
  | .null, .str _ => isFalse fun h => Json.noConfusion h
  | .null, .arr _ => isFalse fun h => Json.noConfusion h
  | .null, .obj _ => isFalse fun h => Json.noConfusion h
  | .bool _, .null => isFalse fun h => Json.noConfusion h
  | .bool x, .bool y =>
    match decEq x y with
    | isTrue h => isTrue (h ▸ rfl)
    | isFalse h => isFalse fun he => h (Json.bool.inj he)
  | .bool _, .num _ => isFalse fun h => Json.noConfusion h
  | .bool _, .str _ => isFalse fun h => Json.noConfusion h
  | .bool _, .arr _ => isFalse fun h => Json.noConfusion h
  | .bool _, .obj _ => isFalse fun h => Json.noConfusion h
  | .num _, .null => isFalse fun h => Json.noConfusion h
  | .num _, .bool _ => isFalse fun h => Json.noConfusion h
  | .num x, .num y =>
    match decEq x y with
    | isTrue h => isTrue (h ▸ rfl)
    | isFalse h => isFalse fun he => h (Json.num.inj he)
  | .num _, .str _ => isFalse fun h => Json.noConfusion h
  | .num _, .arr _ => isFalse fun h => Json.noConfusion h
  | .num _, .obj _ => isFalse fun h => Json.noConfusion h
  | .str _, .null => isFalse fun h => Json.noConfusion h
  | .str _, .bool _ => isFalse fun h => Json.noConfusion h
  | .str _, .num _ => isFalse fun h => Json.noConfusion h
  | .str x, .str y =>
    match decEq x y with
    | isTrue h => isTrue (h ▸ rfl)
    | isFalse h => isFalse fun he => h (Json.str.inj he)
  | .str _, .arr _ => isFalse fun h => Json.noConfusion h
  | .str _, .obj _ => isFalse fun h => Json.noConfusion h
  | .arr _, .null => isFalse fun h => Json.noConfusion h
  | .arr _, .bool _ => isFalse fun h => Json.noConfusion h
  | .arr _, .num _ => isFalse fun h => Json.noConfusion h
  | .arr _, .str _ => isFalse fun h => Json.noConfusion h
  | .arr xs, .arr ys =>
    match decEqJsonList xs ys with
    | isTrue h => isTrue (h ▸ rfl)
    | isFalse h => isFalse fun he => h (Json.arr.inj he)
  | .arr _, .obj _ => isFalse fun h => Json.noConfusion h
  | .obj _, .null => isFalse fun h => Json.noConfusion h
  | .obj _, .bool _ => isFalse fun h => Json.noConfusion h
  | .obj _, .num _ => isFalse fun h => Json.noConfusion h
  | .obj _, .str _ => isFalse fun h => Json.noConfusion h
  | .obj _, .arr _ => isFalse fun h => Json.noConfusion h
  | .obj fs, .obj gs =>
    match decEqJsonFields fs gs with
    | isTrue h => isTrue (h ▸ rfl)
    | isFalse h => isFalse fun he => h (Json.obj.inj he)

def decEqJsonList : (a b : List Json) → Decidable (a = b)
  | [], [] => isTrue rfl
  | [], _ :: _ => isFalse fun h => List.noConfusion h
  | _ :: _, [] => isFalse fun h => List.noConfusion h
  | x :: xs, y :: ys =>
    match decEqJson x y with
    | isFalse h => isFalse fun he => h (List.cons.inj he).1
    | isTrue h1 =>
      match decEqJsonList xs ys with
      | isTrue h2 => isTrue (by rw [h1, h2])
      | isFalse h2 => isFalse fun he => h2 (List.cons.inj he).2

def decEqJsonFields : (a b : List (String × Json)) → Decidable (a = b)
  | [], [] => isTrue rfl
  | [], _ :: _ => isFalse fun h => List.noConfusion h
  | _ :: _, [] => isFalse fun h => List.noConfusion h
  | (k, v) :: xs, (l, w) :: ys =>
    match decEq k l with
    | isFalse h => isFalse fun he => h (congrArg Prod.fst (List.cons.inj he).1)
    | isTrue hk =>
      match decEqJson v w with
      | isFalse h => isFalse fun he => h (congrArg Prod.snd (List.cons.inj he).1)
      | isTrue hv =>
        match decEqJsonFields xs ys with
        | isTrue ht => isTrue (by rw [hk, hv, ht])
        | isFalse h => isFalse fun he => h (List.cons.inj he).2

end

instance : DecidableEq Json := decEqJson

instance {ε α : Type} [DecidableEq ε] [DecidableEq α] :
    DecidableEq (Except ε α) := fun a b =>
  match a, b with
  | .error e, .error f =>
    match decEq e f with
    | isTrue h => isTrue (h ▸ rfl)
    | isFalse h => isFalse fun he => h (Except.error.inj he)
  | .error _, .ok _ => isFalse fun h => Except.noConfusion h
  | .ok _, .error _ => isFalse fun h => Except.noConfusion h
  | .ok x, .ok y =>
    match decEq x y with
    | isTrue h => isTrue (h ▸ rfl)
    | isFalse h => isFalse fun he => h (Except.ok.inj he)

/-- First-match lookup in an ordered field list (Python dict keys are unique,
so the first match is the match). -/
def fieldLookup : List (String × Json) → String → Option Json
  | [], _ => none
  | (k, v) :: rest, key => if k = key then some v else fieldLookup rest key

/-- Python `d.get(key)`: `None` when the key is absent; raises
`AttributeError` when the receiver is not a dict. -/
def pyGet (j : Json) (key : String) : Except String Json :=
  match j with
  | .obj fs => .ok ((fieldLookup fs key).getD .null)
  | _ => .error "AttributeError: object has no attribute get"

/-- Python `d.get(key, default)`: the default when the key is absent; raises
`AttributeError` when the receiver is not a dict. -/
def pyGetD (j : Json) (key : String) (dflt : Json) : Except String Json :=
  match j with
  | .obj fs => .ok ((fieldLookup fs key).getD dflt)
  | _ => .error "AttributeError: object has no attribute get"

/-- The whitespace characters Python `str.strip()` removes (restricted to
the ASCII range; the handlers never build wider whitespace themselves). -/
def pyIsSpace (c : Char) : Bool :=
  c == ' ' || c == '\t' || c == '\n' || c == '\r' || c == '\x0b' || c == '\x0c'

/-- Python `s.strip()` on a string value. -/
def pyStripStr (s : String) : String :=
  String.mk (((s.toList.dropWhile pyIsSpace).reverse.dropWhile pyIsSpace).reverse)

/-- Python `j.strip()` on a value expected to be a string: raises
`AttributeError` on anything that is not a string. -/
def pyStrip (j : Json) : Except String String :=
  match j with
  | .str s => .ok (pyStripStr s)
  | _ => .error "AttributeError: object has no attribute strip"

/-- Python `for x in j`: list iteration yields elements, dict iteration
yields the keys, string iteration yields one-character strings, everything
else raises `TypeError`. -/
def pyIter (j : Json) : Except String (List Json) :=
  match j with
  | .arr xs => .ok xs
  | .obj fs => .ok (fs.map fun p => Json.str p.1)
  | .str s => .ok (s.toList.map fun c => Json.str (String.singleton c))
  | _ => .error "TypeError: object is not iterable"

/-- JSON string escaping as `json.dumps` performs it for the characters the
handlers can meet. -/
def escapeJsonChar (c : Char) : String :=
  if c = '"' then "\\\""
  else if c = '\\' then "\\\\"
  else if c = '\n' then "\\n"
  else if c = '\t' then "\\t"
  else if c = '\r' then "\\r"
  else String.singleton c

/-- The quoted, escaped form of a string under `json.dumps`. -/
def escapeJsonString (s : String) : String :=
  "\"" ++ String.join (s.toList.map escapeJsonChar) ++ "\""

mutual

/-- `json.dumps` with its default separators (a comma-space between items,
a colon-space between a key and its value). -/
def dumps : Json → String
  | .null => "null"
  | .bool true => "true"
  | .bool false => "false"
  | .num n => toString n
  | .str s => escapeJsonString s
  | .arr xs => "[" ++ dumpsList xs ++ "]"
  | .obj fs => "\x7b" ++ dumpsFields fs ++ "\x7d"

def dumpsList : List Json → String
  | [] => ""
  | [x] => dumps x
  | x :: y :: xs => dumps x ++ ", " ++ dumpsList (y :: xs)

def dumpsFields : List (String × Json) → String
  | [] => ""
  | [(k, v)] => escapeJsonString k ++ ": " ++ dumps v
  | (k, v) :: p :: fs => escapeJsonString k ++ ": " ++ dumps v ++ ", " ++ dumpsFields (p :: fs)

end

/-- The per-record Email Summary projection from the `get_emails` handler
(`http_server.py` lines 122-131): `id`, `subject` and `date` via `.get`,
`from` via `email.get("from_attendee", dict()).get("email")`, and `body` as
`email.get("body_markdown", "").strip()`. Written with explicit matches in
the evaluation order of the Python dict literal, so the first raising
subexpression decides the error. -/
def projectEmail (email : Json) : Except String Json :=
  match pyGet email "id" with
  | .error m => .error m
  | .ok idVal =>
    match pyGet email "subject" with
    | .error m => .error m
    | .ok subjectVal =>
      match pyGet email "date" with
      | .error m => .error m
      | .ok dateVal =>
        match pyGetD email "from_attendee" (Json.obj []) with
        | .error m => .error m
        | .ok fromAtt =>
          match pyGet fromAtt "email" with
          | .error m => .error m
          | .ok fromVal =>
            match pyGetD email "body_markdown" (Json.str "") with
            | .error m => .error m
            | .ok bodyRaw =>
              match pyStrip bodyRaw with
              | .error m => .error m
              | .ok bodyStr =>
                .ok (Json.obj [("id", idVal), ("subject", subjectVal),
                  ("date", dateVal), ("from", fromVal),
                  ("body", Json.str bodyStr)])

/-- Sequential projection of the records of the list comprehension in
`get_emails`: the first raising record aborts the whole comprehension. -/
def mapExcept (f : Json → Except String Json) : List Json → Except String (List Json)
  | [] => .ok []
  | x :: xs =>
    match f x with
    | .error m => .error m
    | .ok y =>
      match mapExcept f xs with
      | .error m => .error m
      | .ok ys => .ok (y :: ys)

/-- Result of one handler invocation: `ok body` is a 200 response with JSON
body `body`; `err s d` is `HTTPException(status_code=s, detail=d)`, rendered
by FastAPI as status `s` with the body carrying `d` under the key `detail`. -/
inductive HResult where
  | ok : Json → HResult
  | err : Nat → Json → HResult
  deriving DecidableEq

/-- The HTTP status a handler result is delivered with. -/
def HResult.statusCode : HResult → Nat
  | .ok _ => 200
  | .err s _ => s

/-- True when the result is either a success body or a 500 whose detail is
the message string of the caught exception: the uniform error envelope. -/
def HResult.isOkOr500Envelope : HResult → Bool
  | .ok _ => true
  | .err s d => s == 500 && (match d with | .str _ => true | _ => false)

/-- The module-level configuration globals `UNIPILE_DSN` and
`UNIPILE_API_KEY` read by the handlers. -/
structure Config where
  dsn : String
  api_key : String
  deriving DecidableEq

/-- What `requests` hands back for a completed HTTP exchange: the final
status, the reason phrase, the final URL, and the outcome of decoding the
body as JSON (`response.json()` raises on undecodable bodies). -/
structure HttpResponse where
  status : Nat
  reason : String
  url : String
  jsonBody : Except String Json

/-- Outcome of a direct `requests.post` call: either a network-level
exception carrying its message, or a completed response. -/
inductive PostOutcome where
  | fault : String → PostOutcome
  | response : HttpResponse → PostOutcome

/-- `Response.raise_for_status()` from `requests`: raises `HTTPError` for a
4xx status (Client Error) or a 5xx status (Server Error), and returns
normally for every other status, 1xx/3xx included. -/
def raise_for_status (r : HttpResponse) : Except String Unit :=
  if 400 ≤ r.status ∧ r.status < 500 then
    .error (toString r.status ++ " Client Error: " ++ r.reason ++ " for url: " ++ r.url)
  else if 500 ≤ r.status ∧ r.status < 600 then
    .error (toString r.status ++ " Server Error: " ++ r.reason ++ " for url: " ++ r.url)
  else
    .ok ()

/-- Modelled from the spec: one call through the `UnipileWrapper` methods
`get_accounts`, `get_all_messages` or `get_emails` (its module
`mcp_server_unipile/server.py` is not among the sources). Per section 4.2
the wrapper maps the operation to an upstream listing call scoped to the
account and constrained by the requested limit; the call record keeps the
operation name and those two arguments. -/
structure WrapperCall where
  op : String
  account_id : String
  limit : Int
  deriving DecidableEq

/-- Modelled from the spec: the observable outcome of one wrapper call as
the handler sees it after `json.loads`. Per section 4.1 the Upstream Client
performs one HTTPS call and surfaces any non-2xx response as a failure
carrying status and body text, returning the upstream JSON body otherwise;
`raises m` covers any exception out of the wrapper or out of `json.loads`
on its returned text, `returns j` the successfully parsed body. -/
inductive WrapperOutcome where
  | raises : String → WrapperOutcome
  | returns : Json → WrapperOutcome

/-- Modelled from the spec: the message of the failure the wrapper raises
for a non-2xx upstream status, carrying the upstream status and body text
(section 4.1). -/
def unipileErrorMessage (status : Nat) (bodyText : String) : String :=
  "Unipile API error " ++ toString status ++ ": " ++ bodyText

/-- The `get_accounts` handler (lines 53-61): parse the wrapper result,
wrap it under `data`; any exception becomes a 500 with the message as
detail. -/
def get_accounts (wo : WrapperOutcome) : HResult :=
  match wo with
  | .raises m => .err 500 (.str m)
  | .returns d => .ok (.obj [("data", d)])

/-- The `get_recent_messages` handler (lines 107-115): one wrapper call
with the account and `batch_size`, result wrapped under `data`; any
exception becomes a 500 with the message as detail. -/
def get_recent_messages (account_id : String) (batch_size : Int)
    (wo : WrapperOutcome) : List WrapperCall × HResult :=
  (WrapperCall.mk "get_all_messages" account_id batch_size :: [],
    match wo with
    | .raises m => .err 500 (.str m)
    | .returns d => .ok (.obj [("data", d)]))

/-- The `get_emails` handler (lines 117-135): one wrapper call with the
account and `limit`, then the Email Summary list comprehension over the
parsed result, wrapped under `emails`; any exception becomes a 500 with the
message as detail. -/
def get_emails (account_id : String) (limit : Int)
    (wo : WrapperOutcome) : List WrapperCall × HResult :=
  (WrapperCall.mk "get_emails" account_id limit :: [],
    match wo with
    | .raises m => .err 500 (.str m)
    | .returns raw =>
      match pyIter raw with
      | .error m => .err 500 (.str m)
      | .ok records =>
        match mapExcept projectEmail records with
        | .error m => .err 500 (.str m)
        | .ok emails => .ok (.obj [("emails", .arr emails)]))

/-- One outbound HTTP request as the send/reply handlers build it: URL,
headers, optional JSON payload (the `json=` argument), form fields (the
`data=` argument) and the optional file field (the `files=` argument,
recorded as field name and filename). -/
structure UpstreamCall where
  url : String
  headers : List (String × String)
  jsonPayload : Option Json
  formData : List (String × String)
  filesField : Option (String × String)
  deriving DecidableEq

/-- The request `send_email` posts (lines 95-101): the send path on the
configured DSN, API-key/accept/content-type headers, and the parsed inbound
body forwarded unchanged as the JSON payload. -/
def sendEmailCall (cfg : Config) (payload : Json) : UpstreamCall :=
  { url := "https://" ++ cfg.dsn ++ "/api/v1/emails"
    headers := [("X-API-KEY", cfg.api_key), ("accept", "application/json"),
      ("Content-Type", "application/json")]
    jsonPayload := some payload
    formData := []
    filesField := none }

/-- The `send_email` handler (lines 90-105): parse the raw request body as
JSON, post it verbatim, `raise_for_status`, decode the response body, and
answer with the fixed message plus the upstream JSON; any exception becomes
a 500 with the message as detail. The first component lists the upstream
requests actually issued. -/
def send_email (cfg : Config) (parsedBody : Except String Json)
    (po : PostOutcome) : List UpstreamCall × HResult :=
  match parsedBody with
  | .error m => ([], .err 500 (.str m))
  | .ok payload =>
    (sendEmailCall cfg payload :: [],
      match po with
      | .fault m => .err 500 (.str m)
      | .response r =>
        match raise_for_status r with
        | .error m => .err 500 (.str m)
        | .ok _ =>
          match r.jsonBody with
          | .error m => .err 500 (.str m)
          | .ok b => .ok (.obj [("message", .str "Email sent successfully"),
              ("response", b)]))

/-- The validated body of a reply request: the `EmailRequest` pydantic
model (lines 19-25). The source field `to` is a plain list (named `to_`
here because `to` is a Lean keyword); `cc` and `bcc` default to `None`. -/
structure EmailRequest where
  account_id : String
  subject : String
  body : String
  to_ : List Json
  cc : Option (List Json) := none
  bcc : Option (List Json) := none
  deriving DecidableEq

/-- An uploaded file part: filename plus opaque content. -/
structure UploadedFile where
  filename : String
  content : String
  deriving DecidableEq

/-- The request `reply_email` posts (lines 67-81): the send path on the
configured DSN, API-key/accept headers, form fields `account_id`,
`subject`, `body`, `to` (the recipient list as one `json.dumps` string) and
`reply_to`, plus the optional file under the fixed field name
`attachments`. -/
def replyEmailCall (cfg : Config) (req : EmailRequest) (reply_to : String)
    (attachment : Option UploadedFile) : UpstreamCall :=
  { url := "https://" ++ cfg.dsn ++ "/api/v1/emails"
    headers := [("X-API-KEY", cfg.api_key), ("accept", "application/json")]
    jsonPayload := none
    formData := [("account_id", req.account_id), ("subject", req.subject),
      ("body", req.body), ("to", dumps (.arr req.to_)), ("reply_to", reply_to)]
    filesField := attachment.map fun a => ("attachments", a.filename) }

/-- The `reply_email` handler (lines 63-86): build the multipart request,
post it, `raise_for_status`, and answer with the fixed message; any
exception becomes a 500 with the message as detail. The first component
lists the upstream requests actually issued. -/
def reply_email (cfg : Config) (req : EmailRequest) (reply_to : String)
    (attachment : Option UploadedFile) (po : PostOutcome) :
    List UpstreamCall × HResult :=
  (replyEmailCall cfg req reply_to attachment :: [],
    match po with
    | .fault m => .err 500 (.str m)
    | .response r =>
      match raise_for_status r with
      | .error m => .err 500 (.str m)
      | .ok _ => .ok (.obj [("message", .str "Reply sent successfully")]))

/-- One entry of the body FastAPI attaches to a request-validation failure:
the kind of failure and the location of the offending parameter. -/
def fastapiDetail (source : String) (name : String) : Json :=
  .arr [.obj [("type", .str "missing"),
    ("loc", .arr [.str source, .str name]),
    ("msg", .str "Field required")]]

/-- The FastAPI endpoint boundary of `get_recent_messages`: `account_id` is
a required query parameter and `batch_size` an optional integer one with
default 20 (line 108). A missing required parameter or an unparsable
integer is rejected by the framework with a 422 validation response before
the handler, and with it any wrapper call, runs. -/
def get_recent_messages_boundary (account_id : Option String)
    (batch_size : Option String) (wo : WrapperOutcome) :
    List WrapperCall × HResult :=
  match account_id with
  | none => ([], .err 422 (fastapiDetail "query" "account_id"))
  | some aid =>
    match batch_size with
    | none => get_recent_messages aid 20 wo
    | some s =>
      match s.toInt? with
      | none => ([], .err 422 (fastapiDetail "query" "batch_size"))
      | some n => get_recent_messages aid n wo

/-- The FastAPI endpoint boundary of `get_emails`: `account_id` required,
`limit` optional with default 10 (line 118); rejection behaviour as for
`get_recent_messages_boundary`. -/
def get_emails_boundary (account_id : Option String)
    (limit : Option String) (wo : WrapperOutcome) :
    List WrapperCall × HResult :=
  match account_id with
  | none => ([], .err 422 (fastapiDetail "query" "account_id"))
  | some aid =>
    match limit with
    | none => get_emails aid 10 wo
    | some s =>
      match s.toInt? with
      | none => ([], .err 422 (fastapiDetail "query" "limit"))
      | some n => get_emails aid n wo

/-- Pydantic validation of the reply body against `EmailRequest` (lines
19-25): `account_id`, `subject` and `body` must be present strings, `to`
a present list; `cc` and `bcc` keep their `None` default unless a list is
supplied. A violation is reported as the 422 detail body. -/
def validateEmailRequest (body : Json) : Except Json EmailRequest :=
  match body with
  | .obj fs =>
    match fieldLookup fs "account_id" with
    | some (.str a) =>
      match fieldLookup fs "subject" with
      | some (.str s) =>
        match fieldLookup fs "body" with
        | some (.str b) =>
          match fieldLookup fs "to" with
          | some (.arr ts) =>
            .ok { account_id := a, subject := s, body := b, to_ := ts
                  cc := match fieldLookup fs "cc" with
                    | some (.arr xs) => some xs
                    | _ => none
                  bcc := match fieldLookup fs "bcc" with
                    | some (.arr xs) => some xs
                    | _ => none }
          | _ => .error (fastapiDetail "body" "to")
        | _ => .error (fastapiDetail "body" "body")
      | _ => .error (fastapiDetail "body" "subject")
    | _ => .error (fastapiDetail "body" "account_id")
  | _ => .error (fastapiDetail "body" "body")

/-- The FastAPI endpoint boundary of `reply_email` (line 64): the body must
validate as an `EmailRequest` and `reply_to` is a required query parameter;
either failure is rejected with a 422 validation response before the
handler, and with it the upstream post, runs. The file part is optional. -/
def reply_email_boundary (cfg : Config) (body : Json)
    (reply_to : Option String) (attachment : Option UploadedFile)
    (po : PostOutcome) : List UpstreamCall × HResult :=
  match reply_to with
  | none => ([], .err 422 (fastapiDetail "query" "reply_to"))
  | some rt =>
    match validateEmailRequest body with
    | .error d => ([], .err 422 d)
    | .ok req => reply_email cfg req rt attachment po

/-- Modelled from the spec: the `UnipileWrapper` client object constructed
at startup (its module `mcp_server_unipile/server.py` is not among the
sources); it holds the DSN and the API key (section 6). -/
structure UnipileWrapper where
  dsn : String
  api_key : String
  deriving DecidableEq

/-- Python truthiness test `not x` on an optional environment string:
true for an unset variable and for the empty string. -/
def pyFalsy : Option String → Bool
  | none => true
  | some s => s.isEmpty

/-- The `lifespan` startup hook (lines 31-40): read `UNIPILE_DSN` and
`UNIPILE_API_KEY`, raise `RuntimeError` when either is unset or empty, and
otherwise construct the single `UnipileWrapper`. -/
def lifespan_startup (dsn api_key : Option String) :
    Except String UnipileWrapper :=
  if pyFalsy dsn || pyFalsy api_key then
    .error "Missing UNIPILE_DSN or UNIPILE_API_KEY environment variables"
  else
    .ok (UnipileWrapper.mk (dsn.getD "") (api_key.getD ""))

/-- Whether the application serves requests: uvicorn aborts startup when
the lifespan hook raises, so requests are accepted exactly when
`lifespan_startup` succeeded. -/
def server_accepts_requests (dsn api_key : Option String) : Bool :=
  match lifespan_startup dsn api_key with
  | .ok _ => true
  | .error _ => false

/-- The keys of a JSON object, in order. -/
def keysOf : Json → List String
  | .obj fs => fs.map Prod.fst
  | _ => []

/-- The `from` value of the Email Summary as section 4.3 of the spec words
it: the sender address out of the nested sender object, degrading to
absent (null) when the sender object or its address is missing. -/
def specFromField (fs : List (String × Json)) : Json :=
  match fieldLookup fs "from_attendee" with
  | some (.obj gs) => (fieldLookup gs "email").getD .null
  | _ => .null

/-- The `body` value of the Email Summary as sections 3 and 4.3 of the spec
word it: the whitespace-trimmed markdown body, degrading to the empty
string when missing. -/
def specBodyField (fs : List (String × Json)) : String :=
  match fieldLookup fs "body_markdown" with
  | some (.str s) => pyStripStr s
  | _ => ""

/-- The Email Summary projection as sections 3 and 4.3 of the spec word
it, stated independently of the code for the refinement claims: keep only
id, subject, date, the sender address and the trimmed body; every other
upstream field is dropped; missing fields degrade to null or the empty
string. The spec defines the projection on records (objects) only. -/
def specEmailSummary : Json → Json
  | .obj fs => .obj [("id", (fieldLookup fs "id").getD .null),
      ("subject", (fieldLookup fs "subject").getD .null),
      ("date", (fieldLookup fs "date").getD .null),
      ("from", specFromField fs),
      ("body", .str (specBodyField fs))]
  | j => j

/-- The records on which the Python projection cannot raise: the record is
a dict, its `from_attendee` (when present) is a dict, and its
`body_markdown` (when present) is a string. -/
def wellTypedRecord : Json → Bool
  | .obj fs =>
    (match fieldLookup fs "from_attendee" with
     | none => true
     | some (.obj _) => true
     | some _ => false) &&
    (match fieldLookup fs "body_markdown" with
     | none => true
     | some (.str _) => true
     | some _ => false)
  | _ => false

/-- The number of entries under the key `emails` of a success body, when
the result has that shape. -/
def emailsCount : HResult → Option Nat
  | .ok (.obj [("emails", .arr xs)]) => some xs.length
  | _ => none

/-! Helper lemmas shared by the claim theorems. -/

theorem raise_for_status_of_below_400 (r : HttpResponse) (h : r.status < 400) :
    raise_for_status r = .ok () := by
  unfold raise_for_status
  rw [if_neg (by omega), if_neg (by omega)]

theorem raise_for_status_error_of_4xx5xx (r : HttpResponse)
    (h1 : 400 ≤ r.status) (h2 : r.status < 600) :
    ∃ m, raise_for_status r = .error m ∧ m ≠ "" := by
  unfold raise_for_status
  by_cases hc : 400 ≤ r.status ∧ r.status < 500
  · rw [if_pos hc]
    refine ⟨_, rfl, fun hmsg => ?_⟩
    have hlen := congrArg String.length hmsg
    simp only [String.length_append] at hlen
    rw [show (" Client Error: " : String).length = 15 from rfl,
      show ("" : String).length = 0 from rfl] at hlen
    omega
  · rw [if_neg hc, if_pos (by omega)]
    refine ⟨_, rfl, fun hmsg => ?_⟩
    have hlen := congrArg String.length hmsg
    simp only [String.length_append] at hlen
    rw [show (" Server Error: " : String).length = 15 from rfl,
      show ("" : String).length = 0 from rfl] at hlen
    omega

theorem unipileErrorMessage_ne_empty (s : Nat) (t : String) :
    unipileErrorMessage s t ≠ "" := by
  intro hmsg
  have hlen := congrArg String.length hmsg
  simp only [unipileErrorMessage, String.length_append] at hlen
  rw [show ("Unipile API error " : String).length = 18 from rfl,
    show ("" : String).length = 0 from rfl] at hlen
  omega

theorem mapExcept_length (f : Json → Except String Json) :
    ∀ (rs out : List Json), mapExcept f rs = .ok out → out.length = rs.length := by
  intro rs
  induction rs with
  | nil => intro out h; simp only [mapExcept] at h; cases h; rfl
  | cons x xs ih =>
    intro out h
    simp only [mapExcept] at h
    cases hx : f x with
    | error m => rw [hx] at h; cases h
    | ok y =>
      rw [hx] at h
      cases hxs : mapExcept f xs with
      | error m => rw [hxs] at h; cases h
      | ok ys =>
        rw [hxs] at h
        cases h
        simp [ih ys hxs]

theorem mapExcept_ok_of_forall (f : Json → Except String Json)
    (g : Json → Json) :
    ∀ (rs : List Json), (∀ j ∈ rs, f j = .ok (g j)) →
      mapExcept f rs = .ok (rs.map g) := by
  intro rs
  induction rs with
  | nil => intro _; rfl
  | cons x xs ih =>
    intro h
    have hx : f x = .ok (g x) := h x (by simp)
    have hxs := ih fun j hj => h j (by simp [hj])
    simp [mapExcept, hx, hxs]

theorem pyStripStr_empty : pyStripStr "" = "" := rfl

end Unipile

namespace Unipile

/-- C5: for every JSON object body given to `unipile_send_email`, that body
is forwarded verbatim (no renaming, no added or removed keys) as the JSON
payload of exactly one upstream POST to the send path, and on upstream
success (a 2xx response with JSON body `b`) the endpoint returns the fixed
message together with `b` under the key `response`. -/
theorem send_email_forwards_verbatim (cfg : Config) (payload : Json)
    (r : HttpResponse) (b : Json)
    (h1 : 200 ≤ r.status) (h2 : r.status < 300) (hb : r.jsonBody = .ok b) :
    send_email cfg (.ok payload) (.response r) =
      ([sendEmailCall cfg payload],
        .ok (.obj [("message", .str "Email sent successfully"),
          ("response", b)])) ∧
    (sendEmailCall cfg payload).jsonPayload = some payload ∧
    (sendEmailCall cfg payload).url = "https://" ++ cfg.dsn ++ "/api/v1/emails" := by
  have hrfs := raise_for_status_of_below_400 r (by omega)
  exact ⟨by simp [send_email, hrfs, hb], rfl, rfl⟩

/-- Witness for C5 at the scenario input of the spec: the example payload,
a 200 upstream response with a JSON body. -/
theorem send_email_forwards_verbatim_witness :
    send_email (Config.mk "h1.example.com" "key1")
        (.ok (Json.obj [("account_id", .str "a1"), ("subject", .str "Hi"),
          ("body", .str "Test"), ("to", .arr [.str "x@y.com"])]))
        (.response (HttpResponse.mk 200 "OK" "https://h1.example.com/api/v1/emails"
          (.ok (.obj [("tracking_id", .str "t1")])))) =
      ([sendEmailCall (Config.mk "h1.example.com" "key1")
          (Json.obj [("account_id", .str "a1"), ("subject", .str "Hi"),
            ("body", .str "Test"), ("to", .arr [.str "x@y.com"])])],
        .ok (.obj [("message", .str "Email sent successfully"),
          ("response", .obj [("tracking_id", .str "t1")])])) ∧
    (sendEmailCall (Config.mk "h1.example.com" "key1")
        (Json.obj [("account_id", .str "a1"), ("subject", .str "Hi"),
          ("body", .str "Test"), ("to", .arr [.str "x@y.com"])])).jsonPayload =
      some (Json.obj [("account_id", .str "a1"), ("subject", .str "Hi"),
        ("body", .str "Test"), ("to", .arr [.str "x@y.com"])]) ∧
    (sendEmailCall (Config.mk "h1.example.com" "key1")
        (Json.obj [("account_id", .str "a1"), ("subject", .str "Hi"),
          ("body", .str "Test"), ("to", .arr [.str "x@y.com"])])).url =
      "https://" ++ "h1.example.com" ++ "/api/v1/emails" :=
  send_email_forwards_verbatim (Config.mk "h1.example.com" "key1") _ _ _
    (by decide) (by decide) rfl

/-- C10: when the upstream send succeeds with a 200 status but its response
body does not decode as JSON, `send_email` still reports a 500 envelope
carrying the decode failure message, although the upstream POST was
issued. -/
theorem send_email_success_then_decode_failure (cfg : Config)
    (payload : Json) (r : HttpResponse) (m : String)
    (h1 : r.status = 200) (hb : r.jsonBody = .error m) :
    send_email cfg (.ok payload) (.response r) =
      ([sendEmailCall cfg payload], .err 500 (.str m)) := by
  have hrfs := raise_for_status_of_below_400 r (by omega)
  simp [send_email, hrfs, hb]

/-- Witness for C10: a 200 upstream response whose body is not JSON. -/
theorem send_email_success_then_decode_failure_witness :
    send_email (Config.mk "h1.example.com" "key1") (.ok (Json.obj []))
        (.response (HttpResponse.mk 200 "OK"
          "https://h1.example.com/api/v1/emails"
          (.error "Expecting value: line 1 column 1 (char 0)"))) =
      ([sendEmailCall (Config.mk "h1.example.com" "key1") (Json.obj [])],
        .err 500 (.str "Expecting value: line 1 column 1 (char 0)")) :=
  send_email_success_then_decode_failure (Config.mk "h1.example.com" "key1")
    (Json.obj []) _ _ rfl rfl

/-- C6: for every reply request, `reply_email` issues exactly one upstream
request whose form payload holds exactly the account reference, subject,
body, the recipients list JSON-encoded as a single string form value, and
the reply-target id; a present attachment goes under the fixed field name
`attachments`, an absent one contributes no file field, and no key for cc
or bcc appears. -/
theorem reply_email_upstream_payload (cfg : Config) (req : EmailRequest)
    (rt : String) (att : Option UploadedFile) (po : PostOutcome) :
    (reply_email cfg req rt att po).1 = [replyEmailCall cfg req rt att] ∧
    (replyEmailCall cfg req rt att).formData =
      [("account_id", req.account_id), ("subject", req.subject),
        ("body", req.body), ("to", dumps (.arr req.to_)), ("reply_to", rt)] ∧
    (replyEmailCall cfg req rt att).filesField =
      att.map (fun a => ("attachments", a.filename)) ∧
    (replyEmailCall cfg req rt att).formData.map Prod.fst =
      ["account_id", "subject", "body", "to", "reply_to"] ∧
    (replyEmailCall cfg req rt att).jsonPayload = none :=
  ⟨rfl, rfl, rfl, rfl, rfl⟩

/-- C9: the cc and bcc fields of the inbound reply request are never part
of the outgoing form payload: whatever their values, the form keys are
exactly account_id, subject, body, to and reply_to. -/
theorem reply_email_never_forwards_cc_bcc (cfg : Config)
    (req : EmailRequest) (rt : String) (att : Option UploadedFile)
    (po : PostOutcome) :
    ((reply_email cfg req rt att po).1.map fun c => c.formData.map Prod.fst) =
      [["account_id", "subject", "body", "to", "reply_to"]] ∧
    "cc" ∉ (replyEmailCall cfg req rt att).formData.map Prod.fst ∧
    "bcc" ∉ (replyEmailCall cfg req rt att).formData.map Prod.fst :=
  ⟨rfl, by simp [replyEmailCall], by simp [replyEmailCall]⟩

/-- C8: startup fails with an error exactly when either configuration
value is unset or empty, and the server then accepts no request; with both
present the single client is constructed from them. -/
theorem lifespan_requires_both_values (dsn api_key : Option String)
    (h1 : pyFalsy dsn = false) (h2 : pyFalsy api_key = false) :
    (∀ d k : Option String,
      server_accepts_requests d k = false ↔
        (pyFalsy d = true ∨ pyFalsy k = true)) ∧
    lifespan_startup dsn api_key =
      .ok (UnipileWrapper.mk (dsn.getD "") (api_key.getD "")) ∧
    server_accepts_requests dsn api_key = true := by
  refine ⟨fun d k => ?_, ?_, ?_⟩
  · unfold server_accepts_requests lifespan_startup
    by_cases hd : pyFalsy d = true <;> by_cases hk : pyFalsy k = true <;>
      simp [hd, hk]
  · simp [lifespan_startup, h1, h2]
  · simp [server_accepts_requests, lifespan_startup, h1, h2]

/-- Witness for C8: both values present and non-empty. -/
theorem lifespan_requires_both_values_witness :
    (∀ d k : Option String,
      server_accepts_requests d k = false ↔
        (pyFalsy d = true ∨ pyFalsy k = true)) ∧
    lifespan_startup (some "dsn1.example.com") (some "key1") =
      .ok (UnipileWrapper.mk ((some "dsn1.example.com").getD "")
        ((some "key1").getD "")) ∧
    server_accepts_requests (some "dsn1.example.com") (some "key1") = true :=
  lifespan_requires_both_values (some "dsn1.example.com") (some "key1")
    (by decide) (by decide)

/-- Counterexample to C2 as stated: this record carries exactly the keys
id, subject, date, from and body, yet projecting it does not return it
unchanged (the projection reads `from_attendee` and `body_markdown`, which
a projected record no longer has, so `from` collapses to null and `body`
to the empty string). -/
theorem projection_not_idempotent_cex :
    keysOf (Json.obj [("id", .str "1"), ("subject", .str "s"),
      ("date", .str "d"), ("from", .str "x@y.com"), ("body", .str "b")]) =
      ["id", "subject", "date", "from", "body"] ∧
    projectEmail (Json.obj [("id", .str "1"), ("subject", .str "s"),
      ("date", .str "d"), ("from", .str "x@y.com"), ("body", .str "b")]) ≠
      .ok (Json.obj [("id", .str "1"), ("subject", .str "s"),
        ("date", .str "d"), ("from", .str "x@y.com"), ("body", .str "b")]) := by
  constructor
  · rfl
  · decide

/-- C2 as amended: a record in projected shape is a fixed point of the
projection exactly when its from value is null and its body value is the
empty string; for such records the projection returns the record
unchanged. -/
theorem projection_fixed_point (a b c : Json) :
    projectEmail (Json.obj [("id", a), ("subject", b), ("date", c),
      ("from", .null), ("body", .str "")]) =
      .ok (Json.obj [("id", a), ("subject", b), ("date", c),
        ("from", .null), ("body", .str "")]) := by
  simp [projectEmail, pyGet, pyGetD, pyStrip, fieldLookup, pyStripStr]

/-- Counterexample to C3 as stated: with requested limit 2 and an upstream
response of three records, `get_emails` answers with three projected
summaries; the handler never truncates to the limit, it only forwards it
upstream. -/
theorem get_emails_ignores_limit_cex :
    emailsCount ((get_emails "a1" 2
      (.returns (.arr [.obj [], .obj [], .obj []]))).2) = some 3 ∧
    ¬ (3 ≤ 2) := by
  constructor
  · rfl
  · decide

/-- C3 as amended: the emails list has exactly as many entries as the
upstream record list, so its length is bounded by the requested limit
exactly when the upstream response itself contains at most that many
records; the limit and account are forwarded to the wrapper call, and
`get_recent_messages` passes the upstream data through unchanged. -/
theorem listing_lengths_match_upstream (aid aid2 : String) (lim bs : Int)
    (rs out : List Json) (d : Json)
    (hmap : mapExcept projectEmail rs = .ok out)
    (hlen : (rs.length : Int) ≤ lim) :
    (get_emails aid lim (.returns (.arr rs))).2 =
      .ok (.obj [("emails", .arr out)]) ∧
    out.length = rs.length ∧ ((out.length : Int) ≤ lim) ∧
    (get_emails aid lim (.returns (.arr rs))).1 =
      [WrapperCall.mk "get_emails" aid lim] ∧
    (get_recent_messages aid2 bs (.returns d)).2 =
      .ok (.obj [("data", d)]) := by
  have hl := mapExcept_length projectEmail rs out hmap
  refine ⟨?_, hl, by omega, rfl, rfl⟩
  simp [get_emails, pyIter, hmap]

/-- Witness for C3 as amended: two records, limit 2. -/
theorem listing_lengths_match_upstream_witness :
    (get_emails "a1" 2 (.returns (.arr [.obj [], .obj []]))).2 =
      .ok (.obj [("emails", .arr [
        .obj [("id", .null), ("subject", .null), ("date", .null),
          ("from", .null), ("body", .str "")],
        .obj [("id", .null), ("subject", .null), ("date", .null),
          ("from", .null), ("body", .str "")]])]) ∧
    ([Json.obj [("id", .null), ("subject", .null), ("date", .null),
        ("from", .null), ("body", .str "")],
      Json.obj [("id", .null), ("subject", .null), ("date", .null),
        ("from", .null), ("body", .str "")]] : List Json).length =
      ([Json.obj [], Json.obj []] : List Json).length ∧
    ((([Json.obj [("id", .null), ("subject", .null), ("date", .null),
        ("from", .null), ("body", .str "")],
      Json.obj [("id", .null), ("subject", .null), ("date", .null),
        ("from", .null), ("body", .str "")]] : List Json).length : Int) ≤ 2) ∧
    (get_emails "a1" 2 (.returns (.arr [.obj [], .obj []]))).1 =
      [WrapperCall.mk "get_emails" "a1" 2] ∧
    (get_recent_messages "a2" 20 (.returns (.arr [.num 1, .num 2, .num 3]))).2 =
      .ok (.obj [("data", .arr [.num 1, .num 2, .num 3])]) :=
  listing_lengths_match_upstream "a1" "a2" 2 20 [.obj [], .obj []] _
    (.arr [.num 1, .num 2, .num 3]) (by decide) (by decide)

/-- On a record the Python projection cannot raise on, the code projection
agrees with the projection as the spec words it. -/
theorem projectEmail_eq_spec (j : Json) (h : wellTypedRecord j = true) :
    projectEmail j = .ok (specEmailSummary j) := by
  cases j with
  | obj fs =>
    simp only [wellTypedRecord, Bool.and_eq_true] at h
    obtain ⟨h1, h2⟩ := h
    cases hfa : fieldLookup fs "from_attendee" with
    | none =>
      cases hbm : fieldLookup fs "body_markdown" with
      | none =>
        simp [projectEmail, pyGet, pyGetD, pyStrip, specEmailSummary,
          specFromField, specBodyField, hfa, hbm, fieldLookup, pyStripStr_empty]
      | some v =>
        rw [hbm] at h2
        obtain ⟨s, rfl⟩ : ∃ s, v = .str s := by cases v <;> simp_all
        simp [projectEmail, pyGet, pyGetD, pyStrip, specEmailSummary,
          specFromField, specBodyField, hfa, hbm, fieldLookup]
    | some w =>
      rw [hfa] at h1
      obtain ⟨gs, rfl⟩ : ∃ gs, w = .obj gs := by cases w <;> simp_all
      cases hbm : fieldLookup fs "body_markdown" with
      | none =>
        simp [projectEmail, pyGet, pyGetD, pyStrip, specEmailSummary,
          specFromField, specBodyField, hfa, hbm, fieldLookup, pyStripStr_empty]
      | some v =>
        rw [hbm] at h2
        obtain ⟨s, rfl⟩ : ∃ s, v = .str s := by cases v <;> simp_all
        simp [projectEmail, pyGet, pyGetD, pyStrip, specEmailSummary,
          specFromField, specBodyField, hfa, hbm, fieldLookup]
  | null => simp [wellTypedRecord] at h
  | bool b => simp [wellTypedRecord] at h
  | num n => simp [wellTypedRecord] at h
  | str s => simp [wellTypedRecord] at h
  | arr xs => simp [wellTypedRecord] at h

/-- C4: on upstream records the projection cannot raise on (missing fields
are allowed, present ones carry the expected shapes), `get_emails` projects
each record to exactly the keys id, subject, date, from and body, with the
whitespace-trimmed body and degradation of missing fields to null or the
empty string as the spec-side `specEmailSummary` prescribes, and the output
list keeps the upstream order (it is the elementwise map over the upstream
list). -/
theorem get_emails_projects_records (aid : String) (lim : Int)
    (rs : List Json) (h : rs.all wellTypedRecord = true) :
    (get_emails aid lim (.returns (.arr rs))).2 =
      .ok (.obj [("emails", .arr (rs.map specEmailSummary))]) ∧
    ∀ j ∈ rs, projectEmail j = .ok (specEmailSummary j) ∧
      keysOf (specEmailSummary j) = ["id", "subject", "date", "from", "body"] := by
  have hall : ∀ j ∈ rs, wellTypedRecord j = true := by
    intro j hj
    exact List.all_eq_true.mp h j hj
  have hproj : ∀ j ∈ rs, projectEmail j = .ok (specEmailSummary j) :=
    fun j hj => projectEmail_eq_spec j (hall j hj)
  have hmap := mapExcept_ok_of_forall projectEmail specEmailSummary rs hproj
  refine ⟨by simp [get_emails, pyIter, hmap], fun j hj => ⟨hproj j hj, ?_⟩⟩
  have hj2 := hall j hj
  cases j with
  | obj fs => rfl
  | null => simp [wellTypedRecord] at hj2
  | bool b => simp [wellTypedRecord] at hj2
  | num n => simp [wellTypedRecord] at hj2
  | str s => simp [wellTypedRecord] at hj2
  | arr xs => simp [wellTypedRecord] at hj2

/-- Witness for C4: one rich record (extra upstream fields, nested sender,
untrimmed body) and one empty record. -/
theorem get_emails_projects_records_witness :
    (get_emails "a1" 10 (.returns (.arr [
      .obj [("id", .str "9"), ("subject", .str "Re: x"),
        ("date", .str "2024-01-01"),
        ("from_attendee", .obj [("email", .str "a@b.example"),
          ("display_name", .str "A")]),
        ("body_markdown", .str "  hello \n"), ("thread_id", .str "t1")],
      .obj []]))).2 =
      .ok (.obj [("emails", .arr ([
        Json.obj [("id", .str "9"), ("subject", .str "Re: x"),
          ("date", .str "2024-01-01"),
          ("from_attendee", .obj [("email", .str "a@b.example"),
            ("display_name", .str "A")]),
          ("body_markdown", .str "  hello \n"), ("thread_id", .str "t1")],
        Json.obj []].map specEmailSummary))]) ∧
    ∀ j ∈ ([Json.obj [("id", .str "9"), ("subject", .str "Re: x"),
        ("date", .str "2024-01-01"),
        ("from_attendee", .obj [("email", .str "a@b.example"),
          ("display_name", .str "A")]),
        ("body_markdown", .str "  hello \n"), ("thread_id", .str "t1")],
      Json.obj []] : List Json),
      projectEmail j = .ok (specEmailSummary j) ∧
      keysOf (specEmailSummary j) = ["id", "subject", "date", "from", "body"] :=
  get_emails_projects_records "a1" 10 _ (by decide)

theorem isOkOr500_get_accounts (wo : WrapperOutcome) :
    (get_accounts wo).isOkOr500Envelope = true := by
  cases wo <;> rfl

theorem isOkOr500_get_recent_messages (aid : String) (n : Int)
    (wo : WrapperOutcome) :
    ((get_recent_messages aid n wo).2).isOkOr500Envelope = true := by
  cases wo <;> rfl

theorem isOkOr500_get_emails (aid : String) (n : Int)
    (wo : WrapperOutcome) :
    ((get_emails aid n wo).2).isOkOr500Envelope = true := by
  cases wo with
  | raises m => rfl
  | returns raw =>
    cases hp : pyIter raw with
    | error m => simp [get_emails, hp, HResult.isOkOr500Envelope]
    | ok records =>
      cases hm : mapExcept projectEmail records with
      | error m2 => simp [get_emails, hp, hm, HResult.isOkOr500Envelope]
      | ok es => simp [get_emails, hp, hm, HResult.isOkOr500Envelope]

theorem isOkOr500_send_email (cfg : Config) (parsed : Except String Json)
    (po : PostOutcome) :
    ((send_email cfg parsed po).2).isOkOr500Envelope = true := by
  cases parsed with
  | error m => rfl
  | ok payload =>
    cases po with
    | fault m => rfl
    | response r =>
      cases hr : raise_for_status r with
      | error m => simp [send_email, hr, HResult.isOkOr500Envelope]
      | ok u =>
        cases hb : r.jsonBody with
        | error m => simp [send_email, hr, hb, HResult.isOkOr500Envelope]
        | ok b => simp [send_email, hr, hb, HResult.isOkOr500Envelope]

theorem isOkOr500_reply_email (cfg : Config) (req : EmailRequest)
    (rt : String) (att : Option UploadedFile) (po : PostOutcome) :
    ((reply_email cfg req rt att po).2).isOkOr500Envelope = true := by
  cases po with
  | fault m => rfl
  | response r =>
    cases hr : raise_for_status r with
    | error m => simp [reply_email, hr, HResult.isOkOr500Envelope]
    | ok u => simp [reply_email, hr, HResult.isOkOr500Envelope]

/-- Counterexample to C1 as stated: a 300 upstream response is not 2xx,
yet `reply_email` reports success, because `raise_for_status` only raises
for 4xx and 5xx statuses; the claim promises a 500 envelope for any
non-2xx upstream response. -/
theorem non2xx_silent_success_cex :
    (reply_email (Config.mk "h1.example.com" "key1")
      (EmailRequest.mk "a1" "s" "b" [] none none) "m1" none
      (.response (HttpResponse.mk 300 "Multiple Choices"
        "https://h1.example.com/api/v1/emails" (.error "no body")))).2 =
      .ok (.obj [("message", .str "Reply sent successfully")]) ∧
    ((reply_email (Config.mk "h1.example.com" "key1")
      (EmailRequest.mk "a1" "s" "b" [] none none) "m1" none
      (.response (HttpResponse.mk 300 "Multiple Choices"
        "https://h1.example.com/api/v1/emails" (.error "no body")))).2).statusCode
      ≠ 500 ∧
    ¬ (200 ≤ (300 : Nat) ∧ (300 : Nat) < 300) := by
  refine ⟨by decide, by decide, by decide⟩

/-- C1 as amended: every exception inside a handler is converted to a 500
envelope whose detail is the exception message (the caller always gets the
envelope, never a raw exception, and success is only reported on a
non-raising path); any 4xx or 5xx upstream response in particular yields a
500 envelope with a non-empty detail, for the direct `requests` endpoints
through `raise_for_status` and for the wrapper endpoints through the
failure the wrapper raises. Statuses outside 400-599 that are not 2xx do
not raise and can yield success. -/
theorem handlers_uniform_error_envelope (wo : WrapperOutcome) (aid : String)
    (n : Int) (cfg : Config) (parsed : Except String Json) (po : PostOutcome)
    (req : EmailRequest) (rt : String) (att : Option UploadedFile)
    (payload : Json) (r : HttpResponse) (s : Nat) (t : String)
    (h1 : 400 ≤ r.status) (h2 : r.status < 600)
    (_hs1 : 400 ≤ s) (_hs2 : s < 600) :
    (get_accounts wo).isOkOr500Envelope = true ∧
    ((get_recent_messages aid n wo).2).isOkOr500Envelope = true ∧
    ((get_emails aid n wo).2).isOkOr500Envelope = true ∧
    ((send_email cfg parsed po).2).isOkOr500Envelope = true ∧
    ((reply_email cfg req rt att po).2).isOkOr500Envelope = true ∧
    (∃ m, (send_email cfg (.ok payload) (.response r)).2 =
      .err 500 (.str m) ∧ m ≠ "") ∧
    (∃ m, (reply_email cfg req rt att (.response r)).2 =
      .err 500 (.str m) ∧ m ≠ "") ∧
    get_accounts (.raises (unipileErrorMessage s t)) =
      .err 500 (.str (unipileErrorMessage s t)) ∧
    unipileErrorMessage s t ≠ "" := by
  obtain ⟨m, hm, hne⟩ := raise_for_status_error_of_4xx5xx r h1 h2
  refine ⟨isOkOr500_get_accounts wo, isOkOr500_get_recent_messages aid n wo,
    isOkOr500_get_emails aid n wo, isOkOr500_send_email cfg parsed po,
    isOkOr500_reply_email cfg req rt att po,
    ⟨m, by simp [send_email, hm], hne⟩,
    ⟨m, by simp [reply_email, hm], hne⟩,
    rfl, unipileErrorMessage_ne_empty s t⟩

/-- Witness for C1 as amended, at a 404 upstream response and a 404
wrapper failure. -/
theorem handlers_uniform_error_envelope_witness :
    (get_accounts (.raises "boom")).isOkOr500Envelope = true ∧
    ((get_recent_messages "a1" 20 (.raises "boom")).2).isOkOr500Envelope = true ∧
    ((get_emails "a1" 10 (.raises "boom")).2).isOkOr500Envelope = true ∧
    ((send_email (Config.mk "h1.example.com" "key1") (.ok (Json.obj []))
      (.fault "connection refused")).2).isOkOr500Envelope = true ∧
    ((reply_email (Config.mk "h1.example.com" "key1")
      (EmailRequest.mk "a1" "s" "b" [] none none) "m1" none
      (.fault "connection refused")).2).isOkOr500Envelope = true ∧
    (∃ m, (send_email (Config.mk "h1.example.com" "key1") (.ok (Json.obj []))
      (.response (HttpResponse.mk 404 "Not Found"
        "https://h1.example.com/api/v1/emails" (.error "no body")))).2 =
      .err 500 (.str m) ∧ m ≠ "") ∧
    (∃ m, (reply_email (Config.mk "h1.example.com" "key1")
      (EmailRequest.mk "a1" "s" "b" [] none none) "m1" none
      (.response (HttpResponse.mk 404 "Not Found"
        "https://h1.example.com/api/v1/emails" (.error "no body")))).2 =
      .err 500 (.str m) ∧ m ≠ "") ∧
    get_accounts (.raises (unipileErrorMessage 404 "not found")) =
      .err 500 (.str (unipileErrorMessage 404 "not found")) ∧
    unipileErrorMessage 404 "not found" ≠ "" :=
  handlers_uniform_error_envelope (.raises "boom") "a1" 20
    (Config.mk "h1.example.com" "key1") (.ok (Json.obj []))
    (.fault "connection refused") (EmailRequest.mk "a1" "s" "b" [] none none)
    "m1" none (Json.obj [])
    (HttpResponse.mk 404 "Not Found" "https://h1.example.com/api/v1/emails"
      (.error "no body")) 404 "not found"
    (by decide) (by decide) (by decide) (by decide)

/-- Counterexample to C7 as stated: a request to `get_recent_messages`
with the required query parameter absent is rejected by the framework
validation with status 422, not with the claimed 500 envelope (no wrapper
call is made, which is the part of the claim that does hold). -/
theorem validation_not_500_cex :
    get_recent_messages_boundary none none (.returns .null) =
      ([], .err 422 (fastapiDetail "query" "account_id")) ∧
    ((get_recent_messages_boundary none none (.returns .null)).2).statusCode = 422 ∧
    (422 : Nat) ≠ 500 := by
  refine ⟨by decide, by decide, by decide⟩

/-- C7 as amended: a request missing a required parameter (the account
reference for the listing endpoints, the reply target or a required body
field for the reply endpoint) is rejected by the framework request
validation with a 422 response before any upstream call is made; the
send endpoint performs no field-presence validation at all and issues its
upstream call whatever the payload holds. -/
theorem validation_rejected_at_boundary (bs lim : Option String)
    (wo : WrapperOutcome) (cfg : Config) (body : Json)
    (att : Option UploadedFile) (po : PostOutcome)
    (aid bodyv rt : String) (ts : List Json) (payload : Json) :
    (get_recent_messages_boundary none bs wo).1 = [] ∧
    ((get_recent_messages_boundary none bs wo).2).statusCode = 422 ∧
    (get_emails_boundary none lim wo).1 = [] ∧
    ((get_emails_boundary none lim wo).2).statusCode = 422 ∧
    (reply_email_boundary cfg body none att po).1 = [] ∧
    ((reply_email_boundary cfg body none att po).2).statusCode = 422 ∧
    (reply_email_boundary cfg (.obj [("account_id", .str aid),
      ("body", .str bodyv), ("to", .arr ts)]) (some rt) att po).1 = [] ∧
    ((reply_email_boundary cfg (.obj [("account_id", .str aid),
      ("body", .str bodyv), ("to", .arr ts)]) (some rt) att po).2).statusCode
      = 422 ∧
    (send_email cfg (.ok payload) po).1 = [sendEmailCall cfg payload] := by
  refine ⟨rfl, rfl, rfl, rfl, rfl, rfl, ?_, ?_, rfl⟩ <;>
    simp [reply_email_boundary, validateEmailRequest, fieldLookup,
      HResult.statusCode]

end Unipile
